import Mathlib

/-!
# Router management queries (`pkg/router/mgmt.go`)

A shallow embedding of the Go package `router`: the record types, the
connected-sites count, the inter-router connection lookup, the two query
operations `GetNodes` / `GetConnections` and the remote executor
`router_exec`.

Conventions of the embedding

* A Go slice is `Option (List α)`: `none` is the `nil` slice, `some xs` a
  non-nil slice with elements `xs` (`some []` is the empty non-nil slice).
* A Go `error` result is `Option GoError`: `none` is the `nil` error.
* A Go call either returns or panics: `Outcome`.
* The counters of `ConnectedSites` are Go `int`s. Each is incremented at most
  once per element of a slice whose length is itself an `int`, so no increment
  can overflow; they are natural numbers here (see `loop_Total_le_length`).
* The Kubernetes cluster and the client libraries reached through
  `clientset` and `config` are the record `Cluster`.
* `fmt.Println` output is not part of the embedding.
-/

namespace Router

/-! ## Data model -/

/-- Go `type RouterNode struct`. -/
structure RouterNode where
  Id : String
  Name : String
  NextHop : String
  deriving DecidableEq

/-- Go `type ConnectedSites struct`. -/
structure ConnectedSites where
  Direct : Nat
  Indirect : Nat
  Total : Nat
  deriving DecidableEq

/-- Go `type Connection struct`. -/
structure Connection where
  Container : String
  OperStatus : String
  Host : String
  Role : String
  Active : Bool
  Dir : String
  deriving DecidableEq

/-- A Go `error` value. The two JSON cases are the errors `encoding/json`
reports: `*json.SyntaxError` and `*json.UnmarshalTypeError` (with its `Value`
and `Type` fields); `other` is any error of the cluster or the transport. -/
inductive GoError where
  | other (msg : String)
  | jsonSyntaxError
  | jsonUnmarshalType (value : String) (goType : String)
  deriving DecidableEq

/-- The value a Go panic carries: the argument of `panic(err)`, or one of the
two run-time errors the code can raise. -/
inductive PanicValue where
  | error (e : GoError)
  | indexOutOfRange
  | nilDereference
  deriving DecidableEq

/-- Result of running a Go function: it returns a value or it panics. -/
inductive Outcome (α : Type) where
  | returned (a : α)
  | panicked (p : PanicValue)
  deriving DecidableEq

/-- The zero value `RouterNode{}`. -/
def RouterNode.zero : RouterNode := ⟨"", "", ""⟩

/-- The zero value `Connection{}`. -/
def Connection.zero : Connection := ⟨"", "", "", "", false, ""⟩

/-- The zero value `ConnectedSites{}`. -/
def ConnectedSites.zero : ConnectedSites := ⟨0, 0, 0⟩

/-- Elements a `range` loop visits: none for the `nil` slice. -/
def sliceElems {α : Type} (s : Option (List α)) : List α :=
  match s with
  | none => []
  | some xs => xs

/-! ## The loop of `GetConnectedSites` -/

/-- Body of `for _, n := range nodes` in `GetConnectedSites` (lines 59-65). -/
def connectedSitesStep (result : ConnectedSites) (n : RouterNode) : ConnectedSites :=
  if n.NextHop = "" then
    ⟨result.Direct + 1, result.Indirect, result.Total + 1⟩
  else if n.NextHop ≠ "(self)" then
    ⟨result.Direct, result.Indirect + 1, result.Total + 1⟩
  else
    result

/-- The whole loop, started from `result`. -/
def connectedSitesLoop (result : ConnectedSites) (nodes : List RouterNode) : ConnectedSites :=
  nodes.foldl connectedSitesStep result

/-! ## `GetInterRouterConnection` -/

/-- Go `GetInterRouterConnection`: the loop returns `&c` for the first element
passing the test, where `c` is the loop variable (a copy of the element), and
`nil` after the loop. The function only ranges over `connections`, so the
parameter is the list of its elements (empty for the `nil` slice); the
`*Connection` result is `none` for `nil` and `some c` for a pointer to `c`. -/
def GetInterRouterConnection (host : String) (connections : List Connection) :
    Option Connection :=
  match connections with
  | [] => none
  | c :: rest =>
    if c.Role = "inter-router" ∧ c.Host = host then some c
    else GetInterRouterConnection host rest

/-! ## `encoding/json` as used by the package

`GetNodes` and `GetConnections` call the standard library's
`json.Unmarshal(data, &results)` with `results` an empty slice of structs
whose fields are strings and one bool. `encoding/json` is Go's standard
library, not code of this package; the definitions below embed its documented
behaviour for exactly these two targets, on the JSON value the bytes denote:

* the scanner first validates the whole text; a text that is not JSON gives a
  `SyntaxError` and stores nothing;
* `null` stored into a slice sets it to `nil`, and `null` stored into a
  struct, string or bool leaves the target unchanged; neither is an error;
* an array is stored element by element into a fresh slice;
* an object is stored key by key: a key selects the field whose tag name is
  equal to it, or else the first field whose tag name is equal under case
  folding; a key selecting no field is skipped with its value; a field no key
  selects keeps its zero value; a repeated key stores again;
* a JSON value of the wrong kind for its target records an
  `UnmarshalTypeError` and is skipped; decoding continues, and the first
  recorded error is returned at the end.
-/

/-- A JSON value. A number keeps its literal text; an object keeps its members
in text order, repeated keys included. -/
inductive JsonValue where
  | null
  | bool (b : Bool)
  | number (text : String)
  | string (s : String)
  | array (elems : List JsonValue)
  | object (members : List (String × JsonValue))

/-- The bytes captured from the remote command as the JSON scanner sees them:
not a JSON text, or the JSON value the text denotes. -/
inductive Payload where
  | invalid
  | valid (v : JsonValue)

/-- Go `decodeState.saveError`: only the first error is kept. -/
def saveError (saved : Option GoError) (e : GoError) : Option GoError :=
  match saved with
  | none => some e
  | some s => some s

/-- Case folding of one rune, as a code point. Field names of this package
are ASCII letters, and the runes equal to an ASCII letter under Unicode simple
folding are its two cases, plus U+017F for s and U+212A for k. -/
def foldRune (c : Char) : Nat :=
  if 65 ≤ c.toNat ∧ c.toNat ≤ 90 then c.toNat + 32
  else if c.toNat = 0x17F then 115
  else if c.toNat = 0x212A then 107
  else c.toNat

/-- Go `field.equalFold(name, key)` for an ASCII-letter field name. -/
def equalFold (name key : String) : Bool :=
  name.data.map foldRune == key.data.map foldRune

/-- The field search loop of `decodeState.object`: an exactly equal name wins
at once; otherwise the first name equal under folding is kept. -/
def findFieldFrom {F : Type} (fields : List (String × F)) (key : String) (f : Option F) :
    Option F :=
  match fields with
  | [] => f
  | (name, fld) :: rest =>
    if name = key then some fld
    else if f.isNone ∧ equalFold name key = true then findFieldFrom rest key (some fld)
    else findFieldFrom rest key f

/-- Field selected by an object key, if any. -/
def findField {F : Type} (fields : List (String × F)) (key : String) : Option F :=
  findFieldFrom fields key none

/-- Description of a JSON value in an `UnmarshalTypeError` (its `Value`);
`null` never produces one. -/
def JsonValue.kindName (v : JsonValue) : String :=
  match v with
  | .null => "null"
  | .bool _ => "bool"
  | .number _ => "number"
  | .string _ => "string"
  | .array _ => "array"
  | .object _ => "object"

/-- Store a JSON value into a Go `string` field. -/
def storeString (target : String) (v : JsonValue) (saved : Option GoError) :
    String × Option GoError :=
  match v with
  | .string s => (s, saved)
  | .null => (target, saved)
  | other => (target, saveError saved (.jsonUnmarshalType other.kindName "string"))

/-- Store a JSON value into a Go `bool` field. -/
def storeBool (target : Bool) (v : JsonValue) (saved : Option GoError) :
    Bool × Option GoError :=
  match v with
  | .bool b => (b, saved)
  | .null => (target, saved)
  | other => (target, saveError saved (.jsonUnmarshalType other.kindName "bool"))

/-- Fields of `RouterNode`. -/
inductive NodeField where
  | Id | Name | NextHop
  deriving DecidableEq

/-- JSON tag names of `RouterNode` (lines 34-36), in declaration order. -/
def nodeFields : List (String × NodeField) :=
  [("id", .Id), ("name", .Name), ("nextHop", .NextHop)]

/-- Fields of `Connection`. -/
inductive ConnectionField where
  | Container | OperStatus | Host | Role | Active | Dir
  deriving DecidableEq

/-- JSON tag names of `Connection` (lines 46-51), in declaration order. -/
def connectionFields : List (String × ConnectionField) :=
  [("container", .Container), ("operStatus", .OperStatus), ("host", .Host),
   ("role", .Role), ("active", .Active), ("dir", .Dir)]

/-- Store one object member into a `RouterNode`. -/
def nodeMember (st : RouterNode × Option GoError) (kv : String × JsonValue) :
    RouterNode × Option GoError :=
  match findField nodeFields kv.1 with
  | none => st
  | some .Id =>
    let r := storeString st.1.Id kv.2 st.2
    (⟨r.1, st.1.Name, st.1.NextHop⟩, r.2)
  | some .Name =>
    let r := storeString st.1.Name kv.2 st.2
    (⟨st.1.Id, r.1, st.1.NextHop⟩, r.2)
  | some .NextHop =>
    let r := storeString st.1.NextHop kv.2 st.2
    (⟨st.1.Id, st.1.Name, r.1⟩, r.2)

/-- Store a JSON value into a zero-valued `RouterNode` element. -/
def decodeNode (v : JsonValue) (saved : Option GoError) : RouterNode × Option GoError :=
  match v with
  | .object members => members.foldl nodeMember (RouterNode.zero, saved)
  | .null => (RouterNode.zero, saved)
  | other =>
    (RouterNode.zero, saveError saved (.jsonUnmarshalType other.kindName "router.RouterNode"))

/-- Store the elements of a JSON array into a fresh `[]RouterNode`. -/
def decodeNodeArray (elems : List JsonValue) (saved : Option GoError) :
    List RouterNode × Option GoError :=
  elems.foldl (fun st e => let r := decodeNode e st.2; (st.1 ++ [r.1], r.2)) ([], saved)

/-- The two statements `results := []RouterNode{}` and
`err = json.Unmarshal(buffer.Bytes(), &results)` of `GetNodes` (lines 86-87):
the value of `results` afterwards, and `err`. -/
def jsonUnmarshalNodes (data : Payload) : Option (List RouterNode) × Option GoError :=
  match data with
  | .invalid => (some [], some .jsonSyntaxError)
  | .valid (.array elems) =>
    let r := decodeNodeArray elems none
    (some r.1, r.2)
  | .valid .null => (none, none)
  | .valid other => (some [], some (.jsonUnmarshalType other.kindName "[]router.RouterNode"))

/-- Store one object member into a `Connection`. -/
def connectionMember (st : Connection × Option GoError) (kv : String × JsonValue) :
    Connection × Option GoError :=
  let c := st.1
  match findField connectionFields kv.1 with
  | none => st
  | some .Container =>
    let r := storeString c.Container kv.2 st.2
    (⟨r.1, c.OperStatus, c.Host, c.Role, c.Active, c.Dir⟩, r.2)
  | some .OperStatus =>
    let r := storeString c.OperStatus kv.2 st.2
    (⟨c.Container, r.1, c.Host, c.Role, c.Active, c.Dir⟩, r.2)
  | some .Host =>
    let r := storeString c.Host kv.2 st.2
    (⟨c.Container, c.OperStatus, r.1, c.Role, c.Active, c.Dir⟩, r.2)
  | some .Role =>
    let r := storeString c.Role kv.2 st.2
    (⟨c.Container, c.OperStatus, c.Host, r.1, c.Active, c.Dir⟩, r.2)
  | some .Active =>
    let r := storeBool c.Active kv.2 st.2
    (⟨c.Container, c.OperStatus, c.Host, c.Role, r.1, c.Dir⟩, r.2)
  | some .Dir =>
    let r := storeString c.Dir kv.2 st.2
    (⟨c.Container, c.OperStatus, c.Host, c.Role, c.Active, r.1⟩, r.2)

/-- Store a JSON value into a zero-valued `Connection` element. -/
def decodeConnection (v : JsonValue) (saved : Option GoError) : Connection × Option GoError :=
  match v with
  | .object members => members.foldl connectionMember (Connection.zero, saved)
  | .null => (Connection.zero, saved)
  | other =>
    (Connection.zero, saveError saved (.jsonUnmarshalType other.kindName "router.Connection"))

/-- Store the elements of a JSON array into a fresh `[]Connection`. -/
def decodeConnectionArray (elems : List JsonValue) (saved : Option GoError) :
    List Connection × Option GoError :=
  elems.foldl (fun st e => let r := decodeConnection e st.2; (st.1 ++ [r.1], r.2)) ([], saved)

/-- The two statements `results := []Connection{}` and
`err = json.Unmarshal(buffer.Bytes(), &results)` of `GetConnections`
(lines 112-113): the value of `results` afterwards, and `err`. -/
def jsonUnmarshalConnections (data : Payload) : Option (List Connection) × Option GoError :=
  match data with
  | .invalid => (some [], some .jsonSyntaxError)
  | .valid (.array elems) =>
    let r := decodeConnectionArray elems none
    (some r.1, r.2)
  | .valid .null => (none, none)
  | .valid other => (some [], some (.jsonUnmarshalType other.kindName "[]router.Connection"))

/-! ## The cluster, and `router_exec` -/

/-- The fields of `*corev1.Pod` that `router_exec` reads; `Containers` holds
the names of `pod.Spec.Containers`. -/
structure Pod where
  Name : String
  Namespace : String
  Containers : List String
  deriving DecidableEq

/-- The exec request `router_exec` builds (lines 140-152). -/
structure ExecRequest where
  PodName : String
  PodNamespace : String
  Container : String
  Command : List String
  Stdin : Bool
  Stdout : Bool
  Stderr : Bool
  TTY : Bool
  deriving DecidableEq

/-- What lies behind `clientset` and `config`. These four calls leave the
file `mgmt.go`; each is a parameter of the embedding.

* `GetReadyPod ns component` is `kube.GetReadyPod(namespace, clientset, component)`
  of the sibling package `pkg/kube`: a ready pod, or an error;
* `RESTClientFor` is the error of `restclient.RESTClientFor(config)`;
* `NewSPDYExecutor req` is the error of `remotecommand.NewSPDYExecutor` for the
  URL of `req`;
* `Stream req` is `exec.Stream` writing to `stdout`: an error, or the content
  of `buffer` when the call returns (the standard output of the command). -/
structure Cluster where
  GetReadyPod : String → String → Except GoError Pod
  RESTClientFor : Option GoError
  NewSPDYExecutor : ExecRequest → Option GoError
  Stream : ExecRequest → Except GoError Payload

/-- Go `get_query`. -/
def get_query (typename : String) : List String :=
  ["qdmanage", "query", "--type", typename]

/-- The request of lines 140-152: `exec` on `pod`, in the container named
`container` (the caller passes `pod.Spec.Containers[0].Name`), running
`command` with only standard output attached. -/
def execRequest (pod : Pod) (container : String) (command : List String) : ExecRequest :=
  ⟨pod.Name, pod.Namespace, container, command, false, true, false, false⟩

/-- Go `router_exec(command, namespace, clientset, config)`: the pair
`(*bytes.Buffer, error)` it returns, or the panic it raises. -/
def router_exec (k : Cluster) (command : List String) (ns : String) :
    Outcome (Option Payload × Option GoError) :=
  match k.GetReadyPod ns "router" with
  | .error err => .returned (none, some err)
  | .ok pod =>
    match k.RESTClientFor with
    | some err => .panicked (.error err)
    | none =>
      match pod.Containers with
      | [] => .panicked .indexOutOfRange
      | container :: _ =>
        let req := execRequest pod container command
        match k.NewSPDYExecutor req with
        | some err => .panicked (.error err)
        | none =>
          match k.Stream req with
          | .error err => .returned (none, some err)
          | .ok out => .returned (some out, none)

/-! ## `GetNodes`, `GetConnections`, `GetConnectedSites` -/

/-- Go `GetNodes(namespace, clientset, config)`. -/
def GetNodes (k : Cluster) (ns : String) :
    Outcome (Option (List RouterNode) × Option GoError) :=
  match router_exec k (get_query "node") ns with
  | .panicked p => .panicked p
  | .returned (buffer, err) =>
    match err with
    | some e => .returned (none, some e)
    | none =>
      match buffer with
      | none => .panicked .nilDereference
      | some data =>
        let r := jsonUnmarshalNodes data
        match r.2 with
        | some e => .returned (none, some e)
        | none => .returned (r.1, none)

/-- Go `GetConnections(namespace, clientset, config)`. -/
def GetConnections (k : Cluster) (ns : String) :
    Outcome (Option (List Connection) × Option GoError) :=
  match router_exec k (get_query "connection") ns with
  | .panicked p => .panicked p
  | .returned (buffer, err) =>
    match err with
    | some e => .returned (none, some e)
    | none =>
      match buffer with
      | none => .panicked .nilDereference
      | some data =>
        let r := jsonUnmarshalConnections data
        match r.2 with
        | some e => .returned (none, some e)
        | none => .returned (r.1, none)

/-- Go `GetConnectedSites(namespace, clientset, config)`. -/
def GetConnectedSites (k : Cluster) (ns : String) :
    Outcome (ConnectedSites × Option GoError) :=
  match GetNodes k ns with
  | .panicked p => .panicked p
  | .returned (nodes, err) =>
    match err with
    | none => .returned (connectedSitesLoop ConnectedSites.zero (sliceElems nodes), none)
    | some e => .returned (ConnectedSites.zero, some e)

/-! ## When decoding succeeds

Predicates on the payload, used to state when `json.Unmarshal` reports an
error for the two targets.
-/

/-- The errors `encoding/json` reports. -/
def GoError.isDecodeError (e : GoError) : Bool :=
  match e with
  | .jsonSyntaxError => true
  | .jsonUnmarshalType _ _ => true
  | .other _ => false

/-- A JSON value a Go `string` field takes without error. -/
def JsonValue.isStringOrNull (v : JsonValue) : Bool :=
  match v with
  | .string _ => true
  | .null => true
  | _ => false

/-- A JSON value a Go `bool` field takes without error. -/
def JsonValue.isBoolOrNull (v : JsonValue) : Bool :=
  match v with
  | .bool _ => true
  | .null => true
  | _ => false

/-- An object member that decodes into a `RouterNode` without error: its key
selects no field, or its value is a string or `null`. -/
def nodeMemberOk (kv : String × JsonValue) : Bool :=
  match findField nodeFields kv.1 with
  | none => true
  | some _ => kv.2.isStringOrNull

/-- An array element that decodes into a `RouterNode` without error: `null`,
or an object all of whose members do. -/
def nodeElemOk (v : JsonValue) : Bool :=
  match v with
  | .null => true
  | .object members => members.all nodeMemberOk
  | _ => false

/-- An object member that decodes into a `Connection` without error: its key
selects no field, or its value is `null` or of the field's JSON type. -/
def connectionMemberOk (kv : String × JsonValue) : Bool :=
  match findField connectionFields kv.1 with
  | none => true
  | some .Active => kv.2.isBoolOrNull
  | some _ => kv.2.isStringOrNull

/-- An array element that decodes into a `Connection` without error. -/
def connectionElemOk (v : JsonValue) : Bool :=
  match v with
  | .null => true
  | .object members => members.all connectionMemberOk
  | _ => false

/-! ## Example clusters and payloads -/

/-- The JSON object of a node: members `id`, `name`, `nextHop`, in this order. -/
def encodeNode (n : RouterNode) : JsonValue :=
  .object [("id", .string n.Id), ("name", .string n.Name), ("nextHop", .string n.NextHop)]

/-- The JSON object of a connection, members in declaration order. -/
def encodeConnection (c : Connection) : JsonValue :=
  .object [("container", .string c.Container), ("operStatus", .string c.OperStatus),
    ("host", .string c.Host), ("role", .string c.Role), ("active", .bool c.Active),
    ("dir", .string c.Dir)]

/-- A cluster with one ready router pod whose command output is `out`. -/
def servingCluster (out : Payload) : Cluster :=
  ⟨fun ns _ => .ok ⟨"skupper-router-0", ns, ["router"]⟩, none, fun _ => none, fun _ => .ok out⟩

/-- A cluster with no ready router pod: the locator fails with `e`. -/
def notReadyCluster (e : GoError) : Cluster :=
  ⟨fun _ _ => .error e, none, fun _ => none, fun _ => .ok .invalid⟩

/-- A cluster with a ready router pod and a `config` from which no REST
client can be built. -/
def badConfigCluster (e : GoError) : Cluster :=
  ⟨fun ns _ => .ok ⟨"skupper-router-0", ns, ["router"]⟩, some e, fun _ => none,
    fun _ => .ok (.valid (.array []))⟩

/-- A cluster with a ready router pod for which no SPDY executor can be
built. -/
def badExecutorCluster (e : GoError) : Cluster :=
  ⟨fun ns _ => .ok ⟨"skupper-router-0", ns, ["router"]⟩, none, fun _ => some e,
    fun _ => .ok (.valid (.array []))⟩

/-- A cluster with a ready router pod whose exec stream fails. -/
def brokenStreamCluster (e : GoError) : Cluster :=
  ⟨fun ns _ => .ok ⟨"skupper-router-0", ns, ["router"]⟩, none, fun _ => none,
    fun _ => .error e⟩

/-- The node list of the scenario: A is the local router, B a direct
neighbour, C is reached through B. -/
def scenarioNodes : List RouterNode :=
  [⟨"A", "A", "(self)"⟩, ⟨"B", "B", ""⟩, ⟨"C", "C", "B"⟩]

/-- A cluster whose node query answers with `scenarioNodes`. -/
def scenarioCluster : Cluster :=
  servingCluster (.valid (.array (scenarioNodes.map encodeNode)))

/-- Connections of the lookup scenario: `c1` is an inter-router link to
10.0.0.1, `c2` a normal link to 10.0.0.2. -/
def scenarioConnections : List Connection :=
  [⟨"c1", "", "10.0.0.1", "inter-router", true, "out"⟩,
   ⟨"c2", "", "10.0.0.2", "normal", true, "in"⟩]

/-- Three connections, the last two of them inter-router links to 10.0.0.1. -/
def twoMatches : List Connection :=
  [⟨"c0", "up", "10.0.0.1", "normal", true, "in"⟩,
   ⟨"c1", "up", "10.0.0.1", "inter-router", true, "out"⟩,
   ⟨"c2", "up", "10.0.0.1", "inter-router", false, "in"⟩]

/-- Payload `[(id A, name A, nextHop 5)]`: a number where a string is due. -/
def numberNextHopPayload : Payload :=
  .valid (.array [.object
    [("id", .string "A"), ("name", .string "A"), ("nextHop", .number "5")]])

/-- Payload `[null, (ID A)]`: a `null` element and an object with one key,
in upper case. -/
def sparsePayload : Payload :=
  .valid (.array [.null, .object [("ID", .string "A")]])

/-- Payload of two complete node objects. -/
def twoNodesPayload : Payload :=
  .valid (.array [encodeNode ⟨"A", "A", "(self)"⟩, encodeNode ⟨"B", "B", ""⟩])

/-- Payload `[(id A, name A)]`: the object has no `nextHop`. -/
def noNextHopPayload : Payload :=
  .valid (.array [.object [("id", .string "A"), ("name", .string "A")]])

/-- Payload `[(host 10.0.0.1, active "yes")]`: a string where a bool is due. -/
def stringActivePayload : Payload :=
  .valid (.array [.object [("host", .string "10.0.0.1"), ("active", .string "yes")]])

/-- Payload `[(host 10.0.0.1, active true)]`: four fields are missing. -/
def sparseConnectionPayload : Payload :=
  .valid (.array [.object [("host", .string "10.0.0.1"), ("active", .bool true)]])

/-! ## Lemmas: the counting loop -/

/-- Closed form of the loop: each counter grows by a count over the list. -/
theorem loop_closed_form (r : ConnectedSites) (nodes : List RouterNode) :
    connectedSitesLoop r nodes =
      ⟨r.Direct + nodes.countP (fun n => decide (n.NextHop = "")),
       r.Indirect + nodes.countP (fun n => decide (n.NextHop ≠ "" ∧ n.NextHop ≠ "(self)")),
       r.Total + nodes.countP (fun n => decide (n.NextHop = "")) +
         nodes.countP (fun n => decide (n.NextHop ≠ "" ∧ n.NextHop ≠ "(self)"))⟩ := by
  induction nodes generalizing r with
  | nil => simp [connectedSitesLoop]
  | cons n rest ih =>
    have hstep : connectedSitesLoop r (n :: rest) =
        connectedSitesLoop (connectedSitesStep r n) rest := rfl
    rw [hstep, ih]
    by_cases h1 : n.NextHop = ""
    · simp [connectedSitesStep, h1, List.countP_cons]
      omega
    · by_cases h2 : n.NextHop = "(self)"
      · simp [connectedSitesStep, h1, h2, List.countP_cons]
      · simp [connectedSitesStep, h1, h2, List.countP_cons]
        omega

/-- The total counts the nodes whose next hop is not the self sentinel. -/
theorem loop_Total (r : ConnectedSites) (nodes : List RouterNode) :
    (connectedSitesLoop r nodes).Total =
      r.Total + nodes.countP (fun n => decide (n.NextHop ≠ "(self)")) := by
  induction nodes generalizing r with
  | nil => simp [connectedSitesLoop]
  | cons n rest ih =>
    have hstep : connectedSitesLoop r (n :: rest) =
        connectedSitesLoop (connectedSitesStep r n) rest := rfl
    rw [hstep, ih]
    by_cases h1 : n.NextHop = ""
    · have h2 : n.NextHop ≠ "(self)" := by rw [h1]; decide
      simp [connectedSitesStep, h1, List.countP_cons]
      omega
    · by_cases h2 : n.NextHop = "(self)"
      · simp [connectedSitesStep, h1, h2, List.countP_cons]
      · simp [connectedSitesStep, h1, h2, List.countP_cons]
        omega

/-- No counter exceeds the number of nodes, so no Go `int` increment of the
loop can overflow. -/
theorem loop_Total_le_length (nodes : List RouterNode) :
    (connectedSitesLoop ConnectedSites.zero nodes).Direct ≤ nodes.length ∧
    (connectedSitesLoop ConnectedSites.zero nodes).Indirect ≤ nodes.length ∧
    (connectedSitesLoop ConnectedSites.zero nodes).Total ≤ nodes.length := by
  refine ⟨?_, ?_, ?_⟩
  · rw [loop_closed_form]
    simpa [ConnectedSites.zero] using List.countP_le_length _
  · rw [loop_closed_form]
    simpa [ConnectedSites.zero] using List.countP_le_length _
  · rw [loop_Total]
    simpa [ConnectedSites.zero] using List.countP_le_length _

/-- On a successful node query `GetConnectedSites` returns the loop's result
and a `nil` error. -/
theorem GetConnectedSites_of_nodes (k : Cluster) (ns : String)
    (nodes : Option (List RouterNode)) (h : GetNodes k ns = .returned (nodes, none)) :
    GetConnectedSites k ns =
      .returned (connectedSitesLoop ConnectedSites.zero (sliceElems nodes), none) := by
  simp [GetConnectedSites, h]

/-! ## Lemmas: decoding -/

theorem saveError_some (s e : GoError) : saveError (some s) e = some s := rfl

theorem saveError_isSome (saved : Option GoError) (e : GoError) :
    ∃ s, saveError saved e = some s := by
  cases saved with
  | none => exact ⟨e, rfl⟩
  | some s => exact ⟨s, rfl⟩

/-- A recorded error survives every later step of a decoding loop. -/
theorem foldl_saved_sticky {α β : Type} (step : α × Option GoError → β → α × Option GoError)
    (ok : β → Bool)
    (hok : ∀ st x, ok x = true → (step st x).2 = st.2)
    (hbad : ∀ st x, ok x = false → ∃ e, e.isDecodeError = true ∧ (step st x).2 = saveError st.2 e)
    (xs : List β) (st : α × Option GoError) (s : GoError) (hs : st.2 = some s) :
    (xs.foldl step st).2 = some s := by
  induction xs generalizing st with
  | nil => exact hs
  | cons x rest ih =>
    rw [List.foldl_cons]
    apply ih
    cases hx : ok x with
    | true => rw [hok st x hx, hs]
    | false =>
      obtain ⟨e, _, he⟩ := hbad st x hx
      rw [he, hs]
      rfl

/-- A decoding loop whose steps all succeed leaves the recorded error as it
was; a loop with a failing step ends with a recorded error, the earlier one
if there was one and a decode error otherwise. -/
theorem foldl_saved {α β : Type} (step : α × Option GoError → β → α × Option GoError)
    (ok : β → Bool)
    (hok : ∀ st x, ok x = true → (step st x).2 = st.2)
    (hbad : ∀ st x, ok x = false → ∃ e, e.isDecodeError = true ∧ (step st x).2 = saveError st.2 e)
    (xs : List β) (st : α × Option GoError) :
    (xs.all ok = true → (xs.foldl step st).2 = st.2) ∧
    (xs.all ok = false →
      ∃ e, e.isDecodeError = true ∧ (xs.foldl step st).2 = saveError st.2 e) := by
  induction xs generalizing st with
  | nil => simp
  | cons x rest ih =>
    rw [List.foldl_cons, List.all_cons]
    cases hx : ok x with
    | true =>
      simp only [Bool.true_and]
      rw [← hok st x hx]
      exact ih (step st x)
    | false =>
      simp only [Bool.false_and, Bool.false_eq_true, false_implies, true_implies, true_and]
      obtain ⟨e, hdec, he⟩ := hbad st x hx
      obtain ⟨s, hsave⟩ := saveError_isSome st.2 e
      refine ⟨e, hdec, ?_⟩
      rw [hsave]
      exact foldl_saved_sticky step ok hok hbad rest (step st x) s (he.trans hsave)

theorem storeString_snd (target : String) (v : JsonValue) (saved : Option GoError) :
    (v.isStringOrNull = true → (storeString target v saved).2 = saved) ∧
    (v.isStringOrNull = false → ∃ e, e.isDecodeError = true ∧
      (storeString target v saved).2 = saveError saved e) := by
  cases v <;> simp [storeString, JsonValue.isStringOrNull] <;>
    exact ⟨_, by rfl, rfl⟩

theorem storeBool_snd (target : Bool) (v : JsonValue) (saved : Option GoError) :
    (v.isBoolOrNull = true → (storeBool target v saved).2 = saved) ∧
    (v.isBoolOrNull = false → ∃ e, e.isDecodeError = true ∧
      (storeBool target v saved).2 = saveError saved e) := by
  cases v <;> simp [storeBool, JsonValue.isBoolOrNull] <;>
    exact ⟨_, by rfl, rfl⟩

theorem nodeMember_snd (st : RouterNode × Option GoError) (kv : String × JsonValue) :
    (nodeMemberOk kv = true → (nodeMember st kv).2 = st.2) ∧
    (nodeMemberOk kv = false → ∃ e, e.isDecodeError = true ∧
      (nodeMember st kv).2 = saveError st.2 e) := by
  unfold nodeMemberOk nodeMember
  cases findField nodeFields kv.1 with
  | none => simp
  | some f =>
    cases f
    · exact storeString_snd st.1.Id kv.2 st.2
    · exact storeString_snd st.1.Name kv.2 st.2
    · exact storeString_snd st.1.NextHop kv.2 st.2

theorem decodeNode_snd (v : JsonValue) (saved : Option GoError) :
    (nodeElemOk v = true → (decodeNode v saved).2 = saved) ∧
    (nodeElemOk v = false → ∃ e, e.isDecodeError = true ∧
      (decodeNode v saved).2 = saveError saved e) := by
  cases v with
  | object members =>
    exact foldl_saved nodeMember nodeMemberOk (fun st x => (nodeMember_snd st x).1)
      (fun st x => (nodeMember_snd st x).2) members (RouterNode.zero, saved)
  | null => simp [decodeNode, nodeElemOk]
  | bool b => simp [decodeNode, nodeElemOk]; exact ⟨_, by rfl, rfl⟩
  | number t => simp [decodeNode, nodeElemOk]; exact ⟨_, by rfl, rfl⟩
  | string t => simp [decodeNode, nodeElemOk]; exact ⟨_, by rfl, rfl⟩
  | array es => simp [decodeNode, nodeElemOk]; exact ⟨_, by rfl, rfl⟩

theorem decodeNodeArray_snd (elems : List JsonValue) :
    (elems.all nodeElemOk = true → (decodeNodeArray elems none).2 = none) ∧
    (elems.all nodeElemOk = false → ∃ e, e.isDecodeError = true ∧
      (decodeNodeArray elems none).2 = some e) :=
  foldl_saved (fun (st : List RouterNode × Option GoError) e =>
      let r := decodeNode e st.2; (st.1 ++ [r.1], r.2)) nodeElemOk
    (fun st x => (decodeNode_snd x st.2).1) (fun st x => (decodeNode_snd x st.2).2) elems
    ([], none)

theorem nodeMember_fst (n : RouterNode) (s t : Option GoError) (kv : String × JsonValue) :
    (nodeMember (n, s) kv).1 = (nodeMember (n, t) kv).1 := by
  unfold nodeMember
  cases findField nodeFields kv.1 with
  | none => rfl
  | some f => cases f <;> cases kv.2 <;> rfl

theorem foldl_nodeMember_fst (members : List (String × JsonValue)) (n : RouterNode)
    (s t : Option GoError) :
    (members.foldl nodeMember (n, s)).1 = (members.foldl nodeMember (n, t)).1 := by
  induction members generalizing n s t with
  | nil => rfl
  | cons kv rest ih =>
    rw [List.foldl_cons, List.foldl_cons]
    have h := nodeMember_fst n s t kv
    rw [show nodeMember (n, s) kv = ((nodeMember (n, s) kv).1, (nodeMember (n, s) kv).2) from rfl,
      show nodeMember (n, t) kv = ((nodeMember (n, t) kv).1, (nodeMember (n, t) kv).2) from rfl,
      h]
    exact ih _ _ _

/-- The record an element decodes to does not depend on earlier errors. -/
theorem decodeNode_fst (v : JsonValue) (saved : Option GoError) :
    (decodeNode v saved).1 = (decodeNode v none).1 := by
  cases v with
  | object members => exact foldl_nodeMember_fst members RouterNode.zero saved none
  | null => rfl
  | bool b => rfl
  | number t => rfl
  | string t => rfl
  | array es => rfl

/-- One record per array element, in the order of the array. -/
theorem decodeNodeArray_fst (elems : List JsonValue) (saved : Option GoError) :
    (decodeNodeArray elems saved).1 = elems.map (fun e => (decodeNode e none).1) := by
  have key : ∀ (es : List JsonValue) (acc : List RouterNode) (s : Option GoError),
      (es.foldl (fun (st : List RouterNode × Option GoError) e =>
        let r := decodeNode e st.2; (st.1 ++ [r.1], r.2)) (acc, s)).1 =
        acc ++ es.map (fun e => (decodeNode e none).1) := by
    intro es
    induction es with
    | nil => simp
    | cons e rest ih =>
      intro acc s
      rw [List.foldl_cons, ih]
      simp [decodeNode_fst e s]
  simpa [decodeNodeArray] using key elems [] saved

theorem connectionMember_snd (st : Connection × Option GoError) (kv : String × JsonValue) :
    (connectionMemberOk kv = true → (connectionMember st kv).2 = st.2) ∧
    (connectionMemberOk kv = false → ∃ e, e.isDecodeError = true ∧
      (connectionMember st kv).2 = saveError st.2 e) := by
  unfold connectionMemberOk connectionMember
  cases findField connectionFields kv.1 with
  | none => simp
  | some f =>
    cases f
    · exact storeString_snd st.1.Container kv.2 st.2
    · exact storeString_snd st.1.OperStatus kv.2 st.2
    · exact storeString_snd st.1.Host kv.2 st.2
    · exact storeString_snd st.1.Role kv.2 st.2
    · exact storeBool_snd st.1.Active kv.2 st.2
    · exact storeString_snd st.1.Dir kv.2 st.2

theorem decodeConnection_snd (v : JsonValue) (saved : Option GoError) :
    (connectionElemOk v = true → (decodeConnection v saved).2 = saved) ∧
    (connectionElemOk v = false → ∃ e, e.isDecodeError = true ∧
      (decodeConnection v saved).2 = saveError saved e) := by
  cases v with
  | object members =>
    exact foldl_saved connectionMember connectionMemberOk
      (fun st x => (connectionMember_snd st x).1)
      (fun st x => (connectionMember_snd st x).2) members (Connection.zero, saved)
  | null => simp [decodeConnection, connectionElemOk]
  | bool b => simp [decodeConnection, connectionElemOk]; exact ⟨_, by rfl, rfl⟩
  | number t => simp [decodeConnection, connectionElemOk]; exact ⟨_, by rfl, rfl⟩
  | string t => simp [decodeConnection, connectionElemOk]; exact ⟨_, by rfl, rfl⟩
  | array es => simp [decodeConnection, connectionElemOk]; exact ⟨_, by rfl, rfl⟩

theorem decodeConnectionArray_snd (elems : List JsonValue) :
    (elems.all connectionElemOk = true → (decodeConnectionArray elems none).2 = none) ∧
    (elems.all connectionElemOk = false → ∃ e, e.isDecodeError = true ∧
      (decodeConnectionArray elems none).2 = some e) :=
  foldl_saved (fun (st : List Connection × Option GoError) e =>
      let r := decodeConnection e st.2; (st.1 ++ [r.1], r.2)) connectionElemOk
    (fun st x => (decodeConnection_snd x st.2).1)
    (fun st x => (decodeConnection_snd x st.2).2) elems ([], none)

theorem connectionMember_fst (c : Connection) (s t : Option GoError)
    (kv : String × JsonValue) :
    (connectionMember (c, s) kv).1 = (connectionMember (c, t) kv).1 := by
  unfold connectionMember
  cases findField connectionFields kv.1 with
  | none => rfl
  | some f => cases f <;> cases kv.2 <;> rfl

theorem foldl_connectionMember_fst (members : List (String × JsonValue)) (c : Connection)
    (s t : Option GoError) :
    (members.foldl connectionMember (c, s)).1 = (members.foldl connectionMember (c, t)).1 := by
  induction members generalizing c s t with
  | nil => rfl
  | cons kv rest ih =>
    rw [List.foldl_cons, List.foldl_cons]
    have h := connectionMember_fst c s t kv
    rw [show connectionMember (c, s) kv =
        ((connectionMember (c, s) kv).1, (connectionMember (c, s) kv).2) from rfl,
      show connectionMember (c, t) kv =
        ((connectionMember (c, t) kv).1, (connectionMember (c, t) kv).2) from rfl, h]
    exact ih _ _ _

/-- The record an element decodes to does not depend on earlier errors. -/
theorem decodeConnection_fst (v : JsonValue) (saved : Option GoError) :
    (decodeConnection v saved).1 = (decodeConnection v none).1 := by
  cases v with
  | object members => exact foldl_connectionMember_fst members Connection.zero saved none
  | null => rfl
  | bool b => rfl
  | number t => rfl
  | string t => rfl
  | array es => rfl

/-- One record per array element, in the order of the array. -/
theorem decodeConnectionArray_fst (elems : List JsonValue) (saved : Option GoError) :
    (decodeConnectionArray elems saved).1 =
      elems.map (fun e => (decodeConnection e none).1) := by
  have key : ∀ (es : List JsonValue) (acc : List Connection) (s : Option GoError),
      (es.foldl (fun (st : List Connection × Option GoError) e =>
        let r := decodeConnection e st.2; (st.1 ++ [r.1], r.2)) (acc, s)).1 =
        acc ++ es.map (fun e => (decodeConnection e none).1) := by
    intro es
    induction es with
    | nil => simp
    | cons e rest ih =>
      intro acc s
      rw [List.foldl_cons, ih]
      simp [decodeConnection_fst e s]
  simpa [decodeConnectionArray] using key elems [] saved

theorem decodeNode_encodeNode (n : RouterNode) (saved : Option GoError) :
    decodeNode (encodeNode n) saved = (n, saved) := by
  simp [decodeNode, encodeNode, nodeMember, findField, findFieldFrom, nodeFields, storeString,
    RouterNode.zero]

theorem decodeNodeArray_encode (nodes : List RouterNode) :
    decodeNodeArray (nodes.map encodeNode) none = (nodes, none) := by
  induction nodes using List.reverseRecOn with
  | nil => rfl
  | append_singleton rest n ih =>
    simp only [decodeNodeArray, List.map_append, List.map_cons, List.map_nil, List.foldl_append,
      List.foldl_cons, List.foldl_nil] at ih ⊢
    rw [ih]
    simp [decodeNode_encodeNode]

/-- Every node list is the result of a successful node query on some cluster. -/
theorem GetNodes_servingCluster (nodes : List RouterNode) (ns : String) :
    GetNodes (servingCluster (.valid (.array (nodes.map encodeNode)))) ns =
      .returned (some nodes, none) := by
  simp [GetNodes, router_exec, servingCluster, jsonUnmarshalNodes, decodeNodeArray_encode]

/-- What `GetNodes` returns once `router_exec` has returned a buffer. -/
theorem GetNodes_of_buffer (k : Cluster) (ns : String) (data : Payload)
    (h : router_exec k (get_query "node") ns = .returned (some data, none)) :
    GetNodes k ns =
      match (jsonUnmarshalNodes data).2 with
      | some e => .returned (none, some e)
      | none => .returned ((jsonUnmarshalNodes data).1, none) := by
  simp [GetNodes, h]

/-- What `GetConnections` returns once `router_exec` has returned a buffer. -/
theorem GetConnections_of_buffer (k : Cluster) (ns : String) (data : Payload)
    (h : router_exec k (get_query "connection") ns = .returned (some data, none)) :
    GetConnections k ns =
      match (jsonUnmarshalConnections data).2 with
      | some e => .returned (none, some e)
      | none => .returned ((jsonUnmarshalConnections data).1, none) := by
  simp [GetConnections, h]

/-! ## Claims about `GetConnectedSites` -/

/-- C1: for every node list returned by a successful node query,
`GetConnectedSites` returns `Direct` equal to the number of entries whose
`nextHop` is empty and `Indirect` equal to the number of entries whose
`nextHop` is neither empty nor `"(self)"`; every entry is counted in exactly
one of direct, indirect or self (so self entries are in neither count); and
any node list with the same sequence of `nextHop` values gives the same
counts, whatever its ids and names. -/
theorem C1_connected_sites_counts (k : Cluster) (ns : String)
    (nodes : Option (List RouterNode)) (h : GetNodes k ns = .returned (nodes, none)) :
    ∃ r, GetConnectedSites k ns = .returned (r, none) ∧
      r.Direct = (sliceElems nodes).countP (fun n => decide (n.NextHop = "")) ∧
      r.Indirect =
        (sliceElems nodes).countP (fun n => decide (n.NextHop ≠ "" ∧ n.NextHop ≠ "(self)")) ∧
      r.Direct + r.Indirect +
          (sliceElems nodes).countP (fun n => decide (n.NextHop = "(self)")) =
        (sliceElems nodes).length ∧
      ∀ others : List RouterNode,
        others.map RouterNode.NextHop = (sliceElems nodes).map RouterNode.NextHop →
        connectedSitesLoop ConnectedSites.zero others = r := by
  refine ⟨_, GetConnectedSites_of_nodes k ns nodes h, ?_, ?_, ?_, ?_⟩
  · simp [loop_closed_form, ConnectedSites.zero]
  · simp [loop_closed_form, ConnectedSites.zero]
  · simp only [loop_closed_form, ConnectedSites.zero, Nat.zero_add]
    induction sliceElems nodes with
    | nil => simp
    | cons n rest ih =>
      by_cases h1 : n.NextHop = ""
      · have h2 : n.NextHop ≠ "(self)" := by rw [h1]; decide
        simp [List.countP_cons, h1] at ih ⊢
        omega
      · by_cases h2 : n.NextHop = "(self)"
        · simp [List.countP_cons, h1, h2] at ih ⊢
          omega
        · simp [List.countP_cons, h1, h2] at ih ⊢
          omega
  · intro others hmap
    have hcount : ∀ (p : String → Bool) (xs : List RouterNode),
        xs.countP (fun n => p n.NextHop) = (xs.map RouterNode.NextHop).countP p := by
      intro p xs
      rw [List.countP_map]
      rfl
    rw [loop_closed_form, loop_closed_form]
    rw [hcount (fun s => decide (s = "")) others,
      hcount (fun s => decide (s ≠ "" ∧ s ≠ "(self)")) others,
      hcount (fun s => decide (s = "")) (sliceElems nodes),
      hcount (fun s => decide (s ≠ "" ∧ s ≠ "(self)")) (sliceElems nodes), hmap]

/-- C1, at the scenario: nodes A (self), B (direct) and C (through B) give
Direct 1, Indirect 1, Total 2. -/
theorem C1_connected_sites_counts_witness :
    GetNodes scenarioCluster "skupper" = .returned (some scenarioNodes, none) ∧
    GetConnectedSites scenarioCluster "skupper" = .returned (⟨1, 1, 2⟩, none) ∧
    ∃ r, GetConnectedSites scenarioCluster "skupper" = .returned (r, none) ∧
      r.Direct = (sliceElems (some scenarioNodes)).countP (fun n => decide (n.NextHop = "")) ∧
      r.Indirect = (sliceElems (some scenarioNodes)).countP
        (fun n => decide (n.NextHop ≠ "" ∧ n.NextHop ≠ "(self)")) ∧
      r.Direct + r.Indirect +
          (sliceElems (some scenarioNodes)).countP (fun n => decide (n.NextHop = "(self)")) =
        (sliceElems (some scenarioNodes)).length ∧
      ∀ others : List RouterNode,
        others.map RouterNode.NextHop =
          (sliceElems (some scenarioNodes)).map RouterNode.NextHop →
        connectedSitesLoop ConnectedSites.zero others = r :=
  ⟨by decide, by decide,
    C1_connected_sites_counts scenarioCluster "skupper" (some scenarioNodes) (by decide)⟩

/-- C2: for every node list returned by a successful node query (any number
of self entries, the empty and the nil list included), the result of
`GetConnectedSites` has `Total = Direct + Indirect`; for a list without
elements all three counts are 0. -/
theorem C2_total_is_sum (k : Cluster) (ns : String)
    (nodes : Option (List RouterNode)) (h : GetNodes k ns = .returned (nodes, none)) :
    ∃ r, GetConnectedSites k ns = .returned (r, none) ∧
      r.Total = r.Direct + r.Indirect ∧
      (sliceElems nodes = [] → r = ⟨0, 0, 0⟩) := by
  refine ⟨_, GetConnectedSites_of_nodes k ns nodes h, ?_, ?_⟩
  · simp [loop_closed_form, ConnectedSites.zero]
  · intro hnil
    rw [hnil]
    rfl

/-- C2, at the scenario (one self entry), at the empty array and at the
payload `null` (the `nil` list). -/
theorem C2_total_is_sum_witness :
    (GetNodes scenarioCluster "skupper" = .returned (some scenarioNodes, none) ∧
      ∃ r, GetConnectedSites scenarioCluster "skupper" = .returned (r, none) ∧
        r.Total = r.Direct + r.Indirect ∧
        (sliceElems (some scenarioNodes) = [] → r = ⟨0, 0, 0⟩)) ∧
    (GetNodes (servingCluster (.valid (.array []))) "skupper" = .returned (some [], none) ∧
      GetConnectedSites (servingCluster (.valid (.array []))) "skupper" =
        .returned (⟨0, 0, 0⟩, none)) ∧
    (GetNodes (servingCluster (.valid .null)) "skupper" = .returned (none, none) ∧
      GetConnectedSites (servingCluster (.valid .null)) "skupper" =
        .returned (⟨0, 0, 0⟩, none)) := by
  refine ⟨⟨by decide, C2_total_is_sum scenarioCluster "skupper" (some scenarioNodes)
    (by decide)⟩, ⟨by decide, ?_⟩, ⟨by decide, ?_⟩⟩
  · obtain ⟨r, hr, -, hzero⟩ :=
      C2_total_is_sum (servingCluster (.valid (.array []))) "skupper" (some []) (by decide)
    rw [hr, hzero rfl]
  · obtain ⟨r, hr, -, hzero⟩ :=
      C2_total_is_sum (servingCluster (.valid .null)) "skupper" none (by decide)
    rw [hr, hzero rfl]

/-- C3: for every node list returned by a successful node query with no entry
whose `nextHop` is `"(self)"`, the result of `GetConnectedSites` has
`Direct + Indirect = Total` and `Total = len(nodes)`. -/
theorem C3_total_is_length (k : Cluster) (ns : String)
    (nodes : Option (List RouterNode)) (h : GetNodes k ns = .returned (nodes, none))
    (hself : ∀ n ∈ sliceElems nodes, n.NextHop ≠ "(self)") :
    ∃ r, GetConnectedSites k ns = .returned (r, none) ∧
      r.Direct + r.Indirect = r.Total ∧
      r.Total = (sliceElems nodes).length := by
  refine ⟨_, GetConnectedSites_of_nodes k ns nodes h, ?_, ?_⟩
  · simp [loop_closed_form, ConnectedSites.zero]
  · rw [loop_Total]
    simp only [ConnectedSites.zero, Nat.zero_add]
    rw [List.countP_eq_length]
    intro n hn
    simpa using hself n hn

/-- C3, at a list of two nodes, neither of them the local router. -/
theorem C3_total_is_length_witness :
    GetNodes (servingCluster (.valid (.array
        ([⟨"B", "B", ""⟩, ⟨"C", "C", "B"⟩].map encodeNode)))) "skupper" =
      .returned (some [⟨"B", "B", ""⟩, ⟨"C", "C", "B"⟩], none) ∧
    (∀ n ∈ sliceElems (some [(⟨"B", "B", ""⟩ : RouterNode), ⟨"C", "C", "B"⟩]),
      n.NextHop ≠ "(self)") ∧
    ∃ r, GetConnectedSites (servingCluster (.valid (.array
        ([⟨"B", "B", ""⟩, ⟨"C", "C", "B"⟩].map encodeNode)))) "skupper" = .returned (r, none) ∧
      r.Direct + r.Indirect = r.Total ∧
      r.Total = (sliceElems (some [(⟨"B", "B", ""⟩ : RouterNode), ⟨"C", "C", "B"⟩])).length :=
  ⟨by decide, by decide,
    C3_total_is_length _ "skupper" (some [⟨"B", "B", ""⟩, ⟨"C", "C", "B"⟩]) (by decide)
      (by decide)⟩

/-! ## Claims about `GetInterRouterConnection` -/

/-- C4: when some connection of `cs` has role `"inter-router"` and host `h`,
`GetInterRouterConnection h cs` returns a connection equal to the first such
connection in input order: `cs` splits as `pre ++ c :: post` where no
connection of `pre` passes both tests, `c` passes both, and the result is
`c`. -/
theorem C4_first_match (host : String) (cs : List Connection)
    (h : ∃ c ∈ cs, c.Role = "inter-router" ∧ c.Host = host) :
    ∃ pre c post, cs = pre ++ c :: post ∧
      (∀ x ∈ pre, ¬ (x.Role = "inter-router" ∧ x.Host = host)) ∧
      c.Role = "inter-router" ∧ c.Host = host ∧
      GetInterRouterConnection host cs = some c := by
  induction cs with
  | nil => simp at h
  | cons c rest ih =>
    by_cases hc : c.Role = "inter-router" ∧ c.Host = host
    · exact ⟨[], c, rest, rfl, by simp, hc.1, hc.2, by simp [GetInterRouterConnection, hc]⟩
    · have hrest : ∃ c ∈ rest, c.Role = "inter-router" ∧ c.Host = host := by
        obtain ⟨x, hx, hm⟩ := h
        rcases List.mem_cons.mp hx with rfl | hx
        · exact absurd hm hc
        · exact ⟨x, hx, hm⟩
      obtain ⟨pre, m, post, hsplit, hpre, hr, hh, hres⟩ := ih hrest
      refine ⟨c :: pre, m, post, by simp [hsplit], ?_, hr, hh, ?_⟩
      · intro x hx
        rcases List.mem_cons.mp hx with rfl | hx
        · exact hc
        · exact hpre x hx
      · rw [GetInterRouterConnection, if_neg hc]
        exact hres

/-- C4, at a list where two connections match: the first of them is
returned. -/
theorem C4_first_match_witness :
    (∃ c ∈ twoMatches, c.Role = "inter-router" ∧ c.Host = "10.0.0.1") ∧
    GetInterRouterConnection "10.0.0.1" twoMatches =
      some ⟨"c1", "up", "10.0.0.1", "inter-router", true, "out"⟩ ∧
    ∃ pre c post, twoMatches = pre ++ c :: post ∧
      (∀ x ∈ pre, ¬ (x.Role = "inter-router" ∧ x.Host = "10.0.0.1")) ∧
      c.Role = "inter-router" ∧ c.Host = "10.0.0.1" ∧
      GetInterRouterConnection "10.0.0.1" twoMatches = some c :=
  ⟨by decide, by decide, C4_first_match "10.0.0.1" twoMatches (by decide)⟩

/-- C5: `GetInterRouterConnection h cs` returns `nil` whenever no connection
of `cs` has both role `"inter-router"` and host `h`; a connection with host
`h` and another role does not count. -/
theorem C5_absent_when_no_match (host : String) (cs : List Connection)
    (h : ∀ c ∈ cs, ¬ (c.Role = "inter-router" ∧ c.Host = host)) :
    GetInterRouterConnection host cs = none := by
  induction cs with
  | nil => rfl
  | cons c rest ih =>
    rw [GetInterRouterConnection, if_neg (h c (List.mem_cons_self c rest))]
    exact ih (fun x hx => h x (List.mem_cons_of_mem c hx))

/-- C5, at the scenario: the only connection with host 10.0.0.2 has role
`normal`, and the lookup for 10.0.0.2 finds nothing. -/
theorem C5_absent_when_no_match_witness :
    (∀ c ∈ scenarioConnections, ¬ (c.Role = "inter-router" ∧ c.Host = "10.0.0.2")) ∧
    (∃ c ∈ scenarioConnections, c.Host = "10.0.0.2" ∧ c.Role = "normal") ∧
    GetInterRouterConnection "10.0.0.2" scenarioConnections = none :=
  ⟨by decide, by decide, C5_absent_when_no_match "10.0.0.2" scenarioConnections (by decide)⟩

/-! ## Claims about errors and decoding -/

/-- C6: when `GetNodes` fails with error `e`, `GetConnectedSites` returns the
zero-valued `ConnectedSites` together with the same `e`; when `GetNodes`
succeeds, `GetConnectedSites` returns a `nil` error. -/
theorem C6_error_from_GetNodes (k : Cluster) (ns : String) :
    (∀ nodes e, GetNodes k ns = .returned (nodes, some e) →
      GetConnectedSites k ns = .returned (⟨0, 0, 0⟩, some e)) ∧
    (∀ nodes, GetNodes k ns = .returned (nodes, none) →
      ∃ r, GetConnectedSites k ns = .returned (r, none)) := by
  constructor
  · intro nodes e h
    simp [GetConnectedSites, h, ConnectedSites.zero]
  · intro nodes h
    exact ⟨_, GetConnectedSites_of_nodes k ns nodes h⟩

/-- C6, at a cluster whose locator fails with "Not ready" and at the
scenario cluster. -/
theorem C6_error_from_GetNodes_witness :
    (GetNodes (notReadyCluster (.other "Not ready")) "skupper" =
        .returned (none, some (.other "Not ready")) ∧
      GetConnectedSites (notReadyCluster (.other "Not ready")) "skupper" =
        .returned (⟨0, 0, 0⟩, some (.other "Not ready"))) ∧
    (GetNodes scenarioCluster "skupper" = .returned (some scenarioNodes, none) ∧
      ∃ r, GetConnectedSites scenarioCluster "skupper" = .returned (r, none)) :=
  ⟨⟨by decide,
      (C6_error_from_GetNodes (notReadyCluster (.other "Not ready")) "skupper").1 none
        (.other "Not ready") (by decide)⟩,
    ⟨by decide,
      (C6_error_from_GetNodes scenarioCluster "skupper").2 (some scenarioNodes) (by decide)⟩⟩

/-- C7, as stated, fails: an array whose object lacks `nextHop` is decoded
without error into a node whose `NextHop` is empty; the payload `null`, which
is not an array, gives the `nil` sequence and no error; and an object with
only `host` decodes into a connection with the other fields zero. -/
theorem C7_counterexample_missing_field_accepted :
    GetNodes (servingCluster (.valid (.array
        [.object [("id", .string "A"), ("name", .string "A")]]))) "skupper" =
      .returned (some [⟨"A", "A", ""⟩], none) ∧
    GetNodes (servingCluster (.valid .null)) "skupper" = .returned (none, none) ∧
    GetConnections (servingCluster (.valid (.array
        [.object [("host", .string "10.0.0.1")]]))) "skupper" =
      .returned (some [⟨"", "", "10.0.0.1", "", false, ""⟩], none) := by
  refine ⟨by decide, by decide, by decide⟩

/-- C7, amended: once `router_exec` has returned a buffer, `GetNodes` and
`GetConnections` fail with a decode error and return no sequence when the
payload is not JSON, when it is a JSON value other than an array or `null`,
and when it is an array with an element that is neither an object nor `null`
or with a member that names a record field and whose value is neither `null`
nor of the field's type. The payload `null` gives the `nil` sequence and no
error. Every other array decodes without error into one record per element,
in payload order; a field that no member names is left at its zero value. In
particular a two-element array of complete node objects yields exactly these
two nodes, and an object with only `id` and `name` yields a node with an
empty `NextHop`. -/
theorem C7_amended_decoding (k : Cluster) (ns : String) :
    (∀ data, router_exec k (get_query "node") ns = .returned (some data, none) →
      (data = .invalid → GetNodes k ns = .returned (none, some .jsonSyntaxError)) ∧
      (∀ v, data = .valid v → v ≠ .null → (∀ es, v ≠ .array es) →
        ∃ e, e.isDecodeError = true ∧ GetNodes k ns = .returned (none, some e)) ∧
      (data = .valid .null → GetNodes k ns = .returned (none, none)) ∧
      (∀ es, data = .valid (.array es) → es.all nodeElemOk = false →
        ∃ e, e.isDecodeError = true ∧ GetNodes k ns = .returned (none, some e)) ∧
      (∀ es, data = .valid (.array es) → es.all nodeElemOk = true →
        GetNodes k ns = .returned (some (es.map (fun e => (decodeNode e none).1)), none)) ∧
      (∀ n1 n2, data = .valid (.array [encodeNode n1, encodeNode n2]) →
        GetNodes k ns = .returned (some [n1, n2], none)) ∧
      (∀ a b, data = .valid (.array [.object [("id", .string a), ("name", .string b)]]) →
        GetNodes k ns = .returned (some [⟨a, b, ""⟩], none))) ∧
    (∀ data, router_exec k (get_query "connection") ns = .returned (some data, none) →
      (data = .invalid → GetConnections k ns = .returned (none, some .jsonSyntaxError)) ∧
      (∀ v, data = .valid v → v ≠ .null → (∀ es, v ≠ .array es) →
        ∃ e, e.isDecodeError = true ∧ GetConnections k ns = .returned (none, some e)) ∧
      (data = .valid .null → GetConnections k ns = .returned (none, none)) ∧
      (∀ es, data = .valid (.array es) → es.all connectionElemOk = false →
        ∃ e, e.isDecodeError = true ∧ GetConnections k ns = .returned (none, some e)) ∧
      (∀ es, data = .valid (.array es) → es.all connectionElemOk = true →
        GetConnections k ns =
          .returned (some (es.map (fun e => (decodeConnection e none).1)), none))) := by
  constructor
  · intro data h
    have hG := GetNodes_of_buffer k ns data h
    refine ⟨?_, ?_, ?_, ?_, ?_, ?_, ?_⟩
    · intro hd
      rw [hG, hd]
      rfl
    · intro v hd hnull harr
      rw [hG, hd]
      cases v with
      | null => exact absurd rfl hnull
      | array es => exact absurd rfl (harr es)
      | bool b => exact ⟨_, by rfl, rfl⟩
      | number t => exact ⟨_, by rfl, rfl⟩
      | string t => exact ⟨_, by rfl, rfl⟩
      | object ms => exact ⟨_, by rfl, rfl⟩
    · intro hd
      rw [hG, hd]
      rfl
    · intro es hd hbad
      obtain ⟨e, hdec, he⟩ := (decodeNodeArray_snd es).2 hbad
      refine ⟨e, hdec, ?_⟩
      rw [hG, hd]
      simp [jsonUnmarshalNodes, he]
    · intro es hd hok
      have he := (decodeNodeArray_snd es).1 hok
      rw [hG, hd]
      simp [jsonUnmarshalNodes, he, decodeNodeArray_fst]
    · intro n1 n2 hd
      have he := decodeNodeArray_encode [n1, n2]
      rw [hG, hd]
      simp only [List.map_cons, List.map_nil] at he
      simp [jsonUnmarshalNodes, he]
    · intro a b hd
      rw [hG, hd]
      simp [jsonUnmarshalNodes, decodeNodeArray, decodeNode, nodeMember, findField,
        findFieldFrom, nodeFields, storeString, RouterNode.zero]
  · intro data h
    have hG := GetConnections_of_buffer k ns data h
    refine ⟨?_, ?_, ?_, ?_, ?_⟩
    · intro hd
      rw [hG, hd]
      rfl
    · intro v hd hnull harr
      rw [hG, hd]
      cases v with
      | null => exact absurd rfl hnull
      | array es => exact absurd rfl (harr es)
      | bool b => exact ⟨_, by rfl, rfl⟩
      | number t => exact ⟨_, by rfl, rfl⟩
      | string t => exact ⟨_, by rfl, rfl⟩
      | object ms => exact ⟨_, by rfl, rfl⟩
    · intro hd
      rw [hG, hd]
      rfl
    · intro es hd hbad
      obtain ⟨e, hdec, he⟩ := (decodeConnectionArray_snd es).2 hbad
      refine ⟨e, hdec, ?_⟩
      rw [hG, hd]
      simp [jsonUnmarshalConnections, he]
    · intro es hd hok
      have he := (decodeConnectionArray_snd es).1 hok
      rw [hG, hd]
      simp [jsonUnmarshalConnections, he, decodeConnectionArray_fst]

/-- C7 amended, at payloads that are not JSON, a JSON object, `null`, an
array with a number for `nextHop`, a sparse array, a two-element array of
complete objects, and an object without `nextHop`; and at the like payloads
for connections. -/
theorem C7_amended_decoding_witness :
    (GetNodes (servingCluster .invalid) "skupper" = .returned (none, some .jsonSyntaxError) ∧
      (∃ e, e.isDecodeError = true ∧
        GetNodes (servingCluster (.valid (.object []))) "skupper" = .returned (none, some e)) ∧
      GetNodes (servingCluster (.valid .null)) "skupper" = .returned (none, none) ∧
      (∃ e, e.isDecodeError = true ∧
        GetNodes (servingCluster numberNextHopPayload) "skupper" = .returned (none, some e)) ∧
      GetNodes (servingCluster sparsePayload) "skupper" =
        .returned (some ([JsonValue.null, .object [("ID", .string "A")]].map
          (fun e => (decodeNode e none).1)), none) ∧
      GetNodes (servingCluster twoNodesPayload) "skupper" =
        .returned (some [⟨"A", "A", "(self)"⟩, ⟨"B", "B", ""⟩], none) ∧
      GetNodes (servingCluster noNextHopPayload) "skupper" =
        .returned (some [⟨"A", "A", ""⟩], none)) ∧
    (GetConnections (servingCluster .invalid) "skupper" =
        .returned (none, some .jsonSyntaxError) ∧
      (∃ e, e.isDecodeError = true ∧
        GetConnections (servingCluster (.valid (.string "up"))) "skupper" =
          .returned (none, some e)) ∧
      GetConnections (servingCluster (.valid .null)) "skupper" = .returned (none, none) ∧
      (∃ e, e.isDecodeError = true ∧
        GetConnections (servingCluster stringActivePayload) "skupper" =
          .returned (none, some e)) ∧
      GetConnections (servingCluster sparseConnectionPayload) "skupper" =
        .returned (some ([JsonValue.object
          [("host", .string "10.0.0.1"), ("active", .bool true)]].map
            (fun e => (decodeConnection e none).1)), none)) :=
  ⟨⟨((C7_amended_decoding (servingCluster .invalid) "skupper").1 .invalid rfl).1 rfl,
      ((C7_amended_decoding (servingCluster (.valid (.object []))) "skupper").1
        (.valid (.object [])) rfl).2.1 (.object []) rfl (by simp) (by simp),
      ((C7_amended_decoding (servingCluster (.valid .null)) "skupper").1
        (.valid .null) rfl).2.2.1 rfl,
      ((C7_amended_decoding (servingCluster numberNextHopPayload) "skupper").1
        numberNextHopPayload rfl).2.2.2.1 _ rfl (by decide),
      ((C7_amended_decoding (servingCluster sparsePayload) "skupper").1
        sparsePayload rfl).2.2.2.2.1 _ rfl (by decide),
      ((C7_amended_decoding (servingCluster twoNodesPayload) "skupper").1
        twoNodesPayload rfl).2.2.2.2.2.1 ⟨"A", "A", "(self)"⟩ ⟨"B", "B", ""⟩ rfl,
      ((C7_amended_decoding (servingCluster noNextHopPayload) "skupper").1
        noNextHopPayload rfl).2.2.2.2.2.2 "A" "A" rfl⟩,
    ⟨((C7_amended_decoding (servingCluster .invalid) "skupper").2 .invalid rfl).1 rfl,
      ((C7_amended_decoding (servingCluster (.valid (.string "up"))) "skupper").2
        (.valid (.string "up")) rfl).2.1 (.string "up") rfl (by simp) (by simp),
      ((C7_amended_decoding (servingCluster (.valid .null)) "skupper").2
        (.valid .null) rfl).2.2.1 rfl,
      ((C7_amended_decoding (servingCluster stringActivePayload) "skupper").2
        stringActivePayload rfl).2.2.2.1 _ rfl (by decide),
      ((C7_amended_decoding (servingCluster sparseConnectionPayload) "skupper").2
        sparseConnectionPayload rfl).2.2.2.2 _ rfl (by decide)⟩⟩

/-- C8: `GetNodes` and `GetConnections` propagate failures unchanged and
synthesize no result: when `router_exec` returns error `e` the operation
returns `(nil, e)`; when decoding the captured bytes returns error `d` the
operation returns `(nil, d)`; and a non-nil sequence is returned only together
with a `nil` error. -/
theorem C8_errors_propagate_unchanged (k : Cluster) (ns : String) :
    ((∀ buffer e, router_exec k (get_query "node") ns = .returned (buffer, some e) →
        GetNodes k ns = .returned (none, some e)) ∧
      (∀ data d, router_exec k (get_query "node") ns = .returned (some data, none) →
        (jsonUnmarshalNodes data).2 = some d → GetNodes k ns = .returned (none, some d)) ∧
      (∀ xs err, GetNodes k ns = .returned (some xs, err) → err = none)) ∧
    ((∀ buffer e, router_exec k (get_query "connection") ns = .returned (buffer, some e) →
        GetConnections k ns = .returned (none, some e)) ∧
      (∀ data d, router_exec k (get_query "connection") ns = .returned (some data, none) →
        (jsonUnmarshalConnections data).2 = some d →
        GetConnections k ns = .returned (none, some d)) ∧
      (∀ xs err, GetConnections k ns = .returned (some xs, err) → err = none)) := by
  refine ⟨⟨?_, ?_, ?_⟩, ⟨?_, ?_, ?_⟩⟩
  · intro buffer e h
    simp [GetNodes, h]
  · intro data d h hd
    simp [GetNodes, h, hd]
  · intro xs err h
    unfold GetNodes at h
    split at h
    · simp at h
    · split at h
      · simp at h
      · split at h
        · simp at h
        · dsimp only at h
          split at h
          · simp at h
          · simp only [Outcome.returned.injEq, Prod.mk.injEq] at h
            exact h.2.symm
  · intro buffer e h
    simp [GetConnections, h]
  · intro data d h hd
    simp [GetConnections, h, hd]
  · intro xs err h
    unfold GetConnections at h
    split at h
    · simp at h
    · split at h
      · simp at h
      · split at h
        · simp at h
        · dsimp only at h
          split at h
          · simp at h
          · simp only [Outcome.returned.injEq, Prod.mk.injEq] at h
            exact h.2.symm

/-- C8, at a cluster with no ready pod, at a cluster whose command output is
not JSON, and at clusters answering with one record. -/
theorem C8_errors_propagate_unchanged_witness :
    (GetNodes (notReadyCluster (.other "Not ready")) "skupper" =
        .returned (none, some (.other "Not ready")) ∧
      GetNodes (servingCluster .invalid) "skupper" = .returned (none, some .jsonSyntaxError) ∧
      (none : Option GoError) = none) ∧
    (GetConnections (notReadyCluster (.other "Not ready")) "skupper" =
        .returned (none, some (.other "Not ready")) ∧
      GetConnections (servingCluster .invalid) "skupper" = .returned (none, some .jsonSyntaxError) ∧
      (none : Option GoError) = none) :=
  ⟨⟨(C8_errors_propagate_unchanged (notReadyCluster (.other "Not ready")) "skupper").1.1
        none (.other "Not ready") rfl,
      (C8_errors_propagate_unchanged (servingCluster .invalid) "skupper").1.2.1
        .invalid .jsonSyntaxError rfl rfl,
      (C8_errors_propagate_unchanged
        (servingCluster (.valid (.array [encodeNode ⟨"B", "B", ""⟩]))) "skupper").1.2.2
        [⟨"B", "B", ""⟩] none (by decide)⟩,
    ⟨(C8_errors_propagate_unchanged (notReadyCluster (.other "Not ready")) "skupper").2.1
        none (.other "Not ready") rfl,
      (C8_errors_propagate_unchanged (servingCluster .invalid) "skupper").2.2.1
        .invalid .jsonSyntaxError rfl rfl,
      (C8_errors_propagate_unchanged
        (servingCluster (.valid (.array
          [encodeConnection ⟨"c1", "up", "10.0.0.1", "inter-router", true, "out"⟩])))
        "skupper").2.2.2
        [⟨"c1", "up", "10.0.0.1", "inter-router", true, "out"⟩] none (by decide)⟩⟩

/-- C9, as stated, fails: with a ready pod and a `config` for which
`RESTClientFor` reports an error, `router_exec` does not return that error;
it panics with it. The same holds when `NewSPDYExecutor` reports an error. -/
theorem C9_counterexample_panic_on_setup_error :
    (badConfigCluster (.other "host must be a URL")).RESTClientFor =
        some (.other "host must be a URL") ∧
    router_exec (badConfigCluster (.other "host must be a URL")) (get_query "node") "skupper" =
      .panicked (.error (.other "host must be a URL")) ∧
    (∀ r, router_exec (badConfigCluster (.other "host must be a URL")) (get_query "node")
      "skupper" ≠ .returned r) ∧
    router_exec (badExecutorCluster (.other "no upgrade")) (get_query "node") "skupper" =
      .panicked (.error (.other "no upgrade")) := by
  refine ⟨rfl, rfl, ?_, rfl⟩
  intro r h
  have hp : router_exec (badConfigCluster (.other "host must be a URL")) (get_query "node")
      "skupper" = .panicked (.error (.other "host must be a URL")) := rfl
  rw [hp] at h
  cases h

/-- C9, amended: a failure to locate a ready pod, or a failure while
streaming, is returned as `(nil, err)`; `router_exec` never returns a buffer
together with an error, nor a `nil` buffer with a `nil` error; a failure to
build the REST client or to build the SPDY executor is not returned: the
executor panics with that error. -/
theorem C9_amended_router_exec_failures (k : Cluster) (command : List String) (ns : String) :
    (∀ e, k.GetReadyPod ns "router" = .error e →
      router_exec k command ns = .returned (none, some e)) ∧
    (∀ pod container rest e, k.GetReadyPod ns "router" = .ok pod →
      k.RESTClientFor = none → pod.Containers = container :: rest →
      k.NewSPDYExecutor (execRequest pod container command) = none →
      k.Stream (execRequest pod container command) = .error e →
      router_exec k command ns = .returned (none, some e)) ∧
    (∀ buffer err, router_exec k command ns = .returned (buffer, err) →
      (buffer = none ↔ err ≠ none)) ∧
    (∀ pod e, k.GetReadyPod ns "router" = .ok pod → k.RESTClientFor = some e →
      router_exec k command ns = .panicked (.error e)) ∧
    (∀ pod container rest e, k.GetReadyPod ns "router" = .ok pod →
      k.RESTClientFor = none → pod.Containers = container :: rest →
      k.NewSPDYExecutor (execRequest pod container command) = some e →
      router_exec k command ns = .panicked (.error e)) := by
  refine ⟨?_, ?_, ?_, ?_, ?_⟩
  · intro e h
    simp [router_exec, h]
  · intro pod container rest e hpod hrest hc hexec hstream
    simp [router_exec, hpod, hrest, hc, hexec, hstream]
  · intro buffer err h
    unfold router_exec at h
    split at h
    · simp only [Outcome.returned.injEq, Prod.mk.injEq] at h
      simp [← h.1, ← h.2]
    · split at h
      · simp at h
      · split at h
        · simp at h
        · dsimp only at h
          split at h
          · simp at h
          · split at h
            · simp only [Outcome.returned.injEq, Prod.mk.injEq] at h
              simp [← h.1, ← h.2]
            · simp only [Outcome.returned.injEq, Prod.mk.injEq] at h
              simp [← h.1, ← h.2]
  · intro pod e hpod hrest
    simp [router_exec, hpod, hrest]
  · intro pod container rest e hpod hrest hc hexec
    simp [router_exec, hpod, hrest, hc, hexec]

/-- C9 amended, at a cluster with no ready pod, one with a broken stream, the
scenario cluster, one with a bad `config` and one with no executor. -/
theorem C9_amended_router_exec_failures_witness :
    router_exec (notReadyCluster (.other "Not ready")) (get_query "node") "skupper" =
      .returned (none, some (.other "Not ready")) ∧
    router_exec (brokenStreamCluster (.other "connection reset")) (get_query "node") "skupper" =
      .returned (none, some (.other "connection reset")) ∧
    ((some (.valid (.array (scenarioNodes.map encodeNode))) : Option Payload) = none ↔
      (none : Option GoError) ≠ none) ∧
    router_exec (badConfigCluster (.other "host must be a URL")) (get_query "node") "skupper" =
      .panicked (.error (.other "host must be a URL")) ∧
    router_exec (badExecutorCluster (.other "no upgrade")) (get_query "node") "skupper" =
      .panicked (.error (.other "no upgrade")) :=
  ⟨(C9_amended_router_exec_failures (notReadyCluster (.other "Not ready")) (get_query "node")
      "skupper").1 (.other "Not ready") rfl,
    (C9_amended_router_exec_failures (brokenStreamCluster (.other "connection reset"))
      (get_query "node") "skupper").2.1 ⟨"skupper-router-0", "skupper", ["router"]⟩ "router" []
      (.other "connection reset") rfl rfl rfl rfl rfl,
    (C9_amended_router_exec_failures scenarioCluster (get_query "node") "skupper").2.2.1
      (some (.valid (.array (scenarioNodes.map encodeNode)))) none rfl,
    (C9_amended_router_exec_failures (badConfigCluster (.other "host must be a URL"))
      (get_query "node") "skupper").2.2.2.1 ⟨"skupper-router-0", "skupper", ["router"]⟩
      (.other "host must be a URL") rfl rfl,
    (C9_amended_router_exec_failures (badExecutorCluster (.other "no upgrade"))
      (get_query "node") "skupper").2.2.2.2 ⟨"skupper-router-0", "skupper", ["router"]⟩
      "router" [] (.other "no upgrade") rfl rfl rfl rfl⟩

/-! ## Claim about the order of the node list -/

/-- C10: the loop of `GetConnectedSites` gives the same `Direct`, `Indirect`
and `Total` on two node lists that are permutations of each other, and its
counts on `xs ++ ys` are the field-wise sums of its counts on `xs` and on
`ys`. -/
theorem C10_order_independent_and_additive :
    (∀ xs ys : List RouterNode, xs.Perm ys →
      connectedSitesLoop ConnectedSites.zero xs = connectedSitesLoop ConnectedSites.zero ys) ∧
    (∀ xs ys : List RouterNode,
      (connectedSitesLoop ConnectedSites.zero (xs ++ ys)).Direct =
        (connectedSitesLoop ConnectedSites.zero xs).Direct +
          (connectedSitesLoop ConnectedSites.zero ys).Direct ∧
      (connectedSitesLoop ConnectedSites.zero (xs ++ ys)).Indirect =
        (connectedSitesLoop ConnectedSites.zero xs).Indirect +
          (connectedSitesLoop ConnectedSites.zero ys).Indirect ∧
      (connectedSitesLoop ConnectedSites.zero (xs ++ ys)).Total =
        (connectedSitesLoop ConnectedSites.zero xs).Total +
          (connectedSitesLoop ConnectedSites.zero ys).Total) := by
  constructor
  · intro xs ys hperm
    rw [loop_closed_form, loop_closed_form, hperm.countP_eq, hperm.countP_eq]
  · intro xs ys
    simp only [loop_closed_form, ConnectedSites.zero, List.countP_append]
    omega

/-- C10, at the scenario list and its reversal. -/
theorem C10_order_independent_and_additive_witness :
    scenarioNodes.Perm scenarioNodes.reverse ∧
    connectedSitesLoop ConnectedSites.zero scenarioNodes =
      connectedSitesLoop ConnectedSites.zero scenarioNodes.reverse :=
  ⟨(List.reverse_perm scenarioNodes).symm,
    C10_order_independent_and_additive.1 scenarioNodes scenarioNodes.reverse
      (List.reverse_perm scenarioNodes).symm⟩

end Router
